import Mathlib

/-!
# Verification of the `ionic-cache-observable` cache core

Shallow embedding of `src/cache.ts` (class `Cache<T>`) and of the registry
(`CacheService` in the unnamed service file).  JavaScript runs on a
single-threaded event loop, so "concurrent" calls are an interleaving of
synchronous call steps and asynchronous continuations at event-loop
granularity; we model the entity as an explicit state record and each
method / promise continuation as a state transformer, exactly following the
source.

Conventions:
* a JS value of type `T` that may be `null` is `Option T`, with `none` for
  `null`;
* the field `empty` is `Option Bool`: `none` models the JS `undefined` it
  holds before any branch of the constructor assigns it (undefined is falsy,
  see `truthy`);
* the `BehaviorSubject` current value is the `data` field;
* the error subject `error` is the list `errors` of everything emitted on it,
  in order;
* the ready promise is the flag `readySignaled` (`readyResolve()` sets it);
* the single-flight slot `refreshObservable` holds the handle (an id) of the
  shared in-flight refresh; producers are identified by a numeric id in
  `observable` (rebindable via `setObservable`).  Creating the shared
  observable and its (refCount) first subscription is one producer
  invocation, counted in `producerInvocations`; the handle of an invocation
  is the value of the counter when it was started, so callers holding equal
  handles are attached to the same shared invocation and observe the same
  eventual result.
-/

namespace IonicCache

/-- An emission on the error subject `error` (`this.error.next(...)`):
either one of the two literal store-failure messages produced by the
constructor, or an error value forwarded from the producer by `refresh`. -/
inductive ErrEvent (E : Type) where
  | storeMsg (msg : String)
  | producer (e : E)
deriving DecidableEq, Repr

/-- State of one `Cache<T>` entity, mirroring the fields of the class in
`src/cache.ts`.  `E` is the type of producer errors. -/
structure Cache (T E : Type) where
  /-- `public readonly name` -/
  name : String
  /-- `public useLocalStorage: boolean = true` -/
  useLocalStorage : Bool
  /-- `public loaded: boolean = false` -/
  loaded : Bool
  /-- `public empty: boolean` — declared without initializer, so it is
  `undefined` (`none`) until some branch assigns it. -/
  empty : Option Bool
  /-- `public allowNull: boolean = false` -/
  allowNull : Bool
  /-- current value of `private data: BehaviorSubject<T> = new BehaviorSubject<T>(null)` -/
  data : Option T
  /-- `private refreshObservable: Observable<T>` — `none` when the
  single-flight slot is free, `some h` when the shared refresh with handle
  `h` is in flight. -/
  refreshObservable : Option Nat
  /-- whether `readyResolve()` has run for `readyPromise` -/
  readySignaled : Bool
  /-- everything emitted on the error subject, in order -/
  errors : List (ErrEvent E)
  /-- number of producer invocations started so far -/
  producerInvocations : Nat
  /-- id of the currently bound producer (`private observable`) -/
  observable : Nat
deriving DecidableEq, Repr

/-- JS truthiness of the `empty` field: `undefined` (`none`) and `false`
are falsy, only `true` is truthy (`if (this.empty)`). -/
def truthy : Option Bool → Bool
  | some true => true
  | _ => false

/-- `new Cache(name, observable, storage)` up to the point where the
constructor returns.  With `useLocalStorage` true the storage probe has been
started but none of its continuations has run yet (`empty` still undefined,
ready not signalled); with it false, the else-branch sets `empty = true` and
resolves readiness synchronously. -/
def Cache.construct (T E : Type) (name : String) (obs : Nat)
    (useLS allowNull : Bool) : Cache T E :=
  if useLS then
    { name := name, useLocalStorage := useLS, loaded := false, empty := none,
      allowNull := allowNull, data := none, refreshObservable := none,
      readySignaled := false, errors := [], producerInvocations := 0,
      observable := obs }
  else
    { name := name, useLocalStorage := useLS, loaded := false,
      empty := some true, allowNull := allowNull, data := none,
      refreshObservable := none, readySignaled := true, errors := [],
      producerInvocations := 0, observable := obs }

/-- Outcome of the initial storage probe
`this.storage.ready().then(() => this.storage.get(this.name).then(ok, getRej), readyRej)`:
the key read resolves with `undefined`, resolves with a value (possibly
`null` = `value none`), or rejects; or `storage.ready()` itself rejects. -/
inductive LoadResult (T : Type) where
  | undef
  | value (v : Option T)
  | getRejected
  | readyRejected
deriving DecidableEq

/-- The literal message built on a `storage.get` rejection. -/
def retrieveMsg (name : String) : String :=
  "Cache failed to retrieve \"" ++ name ++ "\" from local storage."

/-- The literal message built on a `storage.ready()` rejection. -/
def accessMsg : String := "Cache failed to access local storage."

/-- The constructor's probe continuations, exactly as written:
on a resolved read, `typeof data !== 'undefined' && (this.allowNull || data !== null)`
records the value and clears `empty`, otherwise sets `empty = true`; both
resolved paths set `loaded` and resolve readiness.  The two rejection
handlers only `console.error` and `this.error.next(errorMessage)` — they
assign neither `empty` nor `loaded` and do not call `readyResolve`. -/
def Cache.loadSettle (c : Cache T E) : LoadResult T → Cache T E
  | .undef =>
      { c with empty := some true, loaded := true, readySignaled := true }
  | .value v =>
      if c.allowNull || v.isSome then
        { c with
          data := v, empty := some false, loaded := true,
          readySignaled := true }
      else
        { c with empty := some true, loaded := true, readySignaled := true }
  | .getRejected =>
      { c with errors := c.errors ++ [.storeMsg (retrieveMsg c.name)] }
  | .readyRejected =>
      { c with errors := c.errors ++ [.storeMsg accessMsg] }

/-- `set(data)`: synchronously `this.empty = false; this.data.next(data)`.
The write-back `this.ready().then(() => this.storage.set(...).then(...))`
is asynchronous; its settlement is `Cache.persistSettle`. -/
def Cache.set (c : Cache T E) (v : Option T) : Cache T E :=
  { c with empty := some false, data := v }

/-- Settlement of the write-back scheduled by `set`: on fulfilment the
continuation `() => this.loaded = true` runs; the promise chain has no
rejection handler anywhere, so a rejected `storage.set` changes nothing
(an unhandled rejection — in particular nothing reaches the error subject). -/
def Cache.persistSettle (c : Cache T E) (ok : Bool) : Cache T E :=
  if ok then { c with loaded := true } else c

/-- `refresh()`: if `this.refreshObservable == null`, build
`this.observable.finally(clear).do(set, error.next).share()`, store it in the
slot and return it — starting one producer invocation whose handle is the
current invocation counter; otherwise return the stored shared observable,
attaching the caller to the in-flight invocation. -/
def Cache.refresh (c : Cache T E) : Cache T E × Nat :=
  match c.refreshObservable with
  | some h => (c, h)
  | none =>
      ({ c with
         refreshObservable := some c.producerInvocations,
         producerInvocations := c.producerInvocations + 1 },
       c.producerInvocations)

/-- Outcome of one producer invocation: it yields one value (possibly
`null`) and completes, or it fails with an error. -/
inductive RefreshOutcome (T E : Type) where
  | success (v : Option T)
  | failure (e : E)
deriving DecidableEq

/-- Settlement of the in-flight shared refresh.  On a value emission the
`do`-next handler routes it through `set`; on error the `do`-error handler
emits it on the error subject and no value is recorded; in both cases the
`finally(() => this.refreshObservable = null)` teardown frees the slot. -/
def Cache.refreshSettle (c : Cache T E) : RefreshOutcome T E → Cache T E
  | .success v => { c.set v with refreshObservable := none }
  | .failure e =>
      { c with
        refreshObservable := none,
        errors := c.errors ++ [.producer e] }

/-- What a caller of `get()` is handed once the gate has let it through:
either the shared refresh with handle `h` (`return this.refresh()`), or
`Observable.of(this.data.getValue())`. -/
inductive GetAction (T : Type) where
  | refreshDelegate (h : Nat)
  | snapshot (v : Option T)
deriving DecidableEq

/-- What a `GetAction` delivers to its subscriber, given the emission
behaviour `res : handle → (values, completed)` of each shared refresh:
`Observable.of(v)` emits exactly `v` and completes; a refresh delegate
delivers whatever the shared invocation it is attached to delivers. -/
def GetAction.emissions : GetAction T → (Nat → List (Option T) × Bool) →
    List (Option T) × Bool
  | .snapshot v, _ => ([v], true)
  | .refreshDelegate h, res => res h

/-- The `mergeMap` body of `get()`, reached only after `this.ready()`
resolves: `if (this.empty) return this.refresh(); else return Observable.of(this.data.getValue())`. -/
def Cache.getAfterReady (c : Cache T E) : Cache T E × GetAction T :=
  if truthy c.empty then
    ((c.refresh).1, .refreshDelegate (c.refresh).2)
  else
    (c, .snapshot c.data)

/-- `get()`: `Observable.fromPromise(this.ready()).mergeMap(...)` — the body
cannot run before the gate signals, so the call is `none` (still suspended)
while `readySignaled` is false. -/
def Cache.get (c : Cache T E) : Option (Cache T E × GetAction T) :=
  if c.readySignaled then some c.getAfterReady else none

/-- `isEmpty()`: `this.ready().then(() => this.empty)` — suspended until the
gate signals, then resolves with the truthiness of the flag. -/
def Cache.isEmptyAsync (c : Cache T E) : Option Bool :=
  if c.readySignaled then some (truthy c.empty) else none

/-- In the source the second test of the `get$` filter is
`this.data !== null`.  `this.data` is the `BehaviorSubject` reference,
assigned once at construction and never reassigned, so the comparison is
against the subject object itself — never its current value — and is
constantly true. -/
def dataRefNonNull (_c : Cache T E) : Bool := true

/-- One delivery attempt of the `get$` filter, for the current state:
if `this.empty` is truthy it fires `this.refresh().subscribe()` and returns
false (withhold); otherwise it returns `this.allowNull || this.data !== null`
(see `dataRefNonNull`).  Result: (state after the attempt, whether the
current `data` value is delivered). -/
def Cache.getStreamFilter (c : Cache T E) : Cache T E × Bool :=
  if truthy c.empty then
    ((c.refresh).1, false)
  else
    (c, c.allowNull || dataRefNonNull c)

/-- `setObservable(observable)`: rebind the producer. -/
def Cache.setObservable (c : Cache T E) (obs : Nat) : Cache T E :=
  { c with observable := obs }

/-- One synchronous call step issued by some caller: a `refresh()` call or a
`get()` call.  (JS is single-threaded, so "concurrent" callers interleave
whole synchronous steps.) -/
inductive Call where
  | refreshCall
  | getCall
deriving DecidableEq

/-- Run one call step, returning the new state and the refresh handle the
caller got attached to: `some h` when the caller holds the shared refresh
`h` (from `refresh()` directly or from `get()` delegating on empty), `none`
when `get()` returned a snapshot or is still suspended on the gate. -/
def Cache.stepCall (c : Cache T E) : Call → Cache T E × Option Nat
  | .refreshCall => ((c.refresh).1, some (c.refresh).2)
  | .getCall =>
      match c.get with
      | none => (c, none)
      | some (c2, .refreshDelegate h) => (c2, some h)
      | some (c2, .snapshot _) => (c2, none)

/-- Run a sequence of call steps, collecting each caller's attached refresh
handle in order. -/
def Cache.runCalls (c : Cache T E) : List Call → Cache T E × List (Option Nat)
  | [] => (c, [])
  | k :: ks =>
      let p := c.stepCall k
      let q := p.1.runCalls ks
      (q.1, p.2 :: q.2)

/-- Registry state: `private caches: Cache[] = []` of `CacheService`. -/
structure CacheService (T E : Type) where
  caches : List (Cache T E)
deriving DecidableEq

/-- The lookup loop of `CacheService.get`: first entry whose `name` matches. -/
def lookupCache : List (Cache T E) → String → Option (Cache T E)
  | [], _ => none
  | c :: rest, n => if c.name = n then some c else lookupCache rest n

/-- `CacheService.get(name)`: return the first registered cache with that
name, or the defined throw
`'Cache "' + name + " has not been registered yet."` (note the source's
unbalanced quoting: the message has an opening quote only). -/
def CacheService.get (s : CacheService T E) (n : String) :
    Except String (Cache T E) :=
  match lookupCache s.caches n with
  | some c => .ok c
  | none => .error ("Cache \"" ++ n ++ " has not been registered yet.")

/-- In-place update of the entity found by the lookup loop: JS holds the
caches by reference, so `cache.setObservable(observable)` mutates the entry
stored in the registry as well. -/
def rebindFirst : List (Cache T E) → String → Nat → List (Cache T E)
  | [], _, _ => []
  | c :: rest, n, obs =>
      if c.name = n then c.setObservable obs :: rest
      else c :: rebindFirst rest n obs

/-- `CacheService.register(name, observable, overwrite?)`:
`this.get(name).catch(create and push).map(cache => { if (overwrite !== false) cache.setObservable(observable); return cache; })`.
`overwrite` is `Option Bool` (`none` = argument omitted, hence
`overwrite !== false` holds).  Returns the registry afterwards and the
entity handed to the caller. -/
def CacheService.register (s : CacheService T E) (n : String) (obs : Nat)
    (overwrite : Option Bool) : CacheService T E × Cache T E :=
  match lookupCache s.caches n with
  | some c =>
      if overwrite = some false then (s, c)
      else ({ caches := rebindFirst s.caches n obs }, c.setObservable obs)
  | none =>
      let c := Cache.construct T E n obs true false
      let c2 := if overwrite = some false then c else c.setObservable obs
      ({ caches := s.caches ++ [c2] }, c2)

/-! Concrete entities used to instantiate the theorems below. -/

/-- A memory-only entity (`useLocalStorage = false`): constructed ready and
empty, producer id 0. -/
def memCache : Cache Nat Nat := Cache.construct Nat Nat "w" 0 false false

/-- `memCache` with one refresh in flight (handle 0). -/
def busyCache : Cache Nat Nat := ((memCache).refresh).1

/-- A second memory-only entity, idle. -/
def idleCache : Cache Nat Nat := Cache.construct Nat Nat "w2" 1 false false

/-- A persistent entity right after construction, before the probe settles. -/
def pendingCache : Cache Nat Nat := Cache.construct Nat Nat "k" 0 true false

/-- `pendingCache` after its storage probe rejected. -/
def probeFailedCache : Cache Nat Nat := pendingCache.loadSettle .getRejected

/-- A memory-only entity that accepted `null` through `set` while
`allowNull` is false. -/
def nullRecordedCache : Cache Nat Nat := memCache.set none

/-- `memCache` holding the value 5. -/
def filledCache : Cache Nat Nat := memCache.set (some 5)

/-- A registry holding exactly `memCache` under the name `"w"`. -/
def oneCacheService : CacheService Nat Nat := { caches := [memCache] }

/-! ## Helper lemmas -/

/-- While the single-flight slot holds `h`, the entity is ready and the
empty flag is truthy, any single `refresh()` or `get()` step leaves the
state unchanged and attaches the caller to handle `h`. -/
theorem stepCall_attached (c : Cache T E) (h : Nat) (k : Call)
    (hs : c.refreshObservable = some h) (hready : c.readySignaled = true)
    (hempty : truthy c.empty = true) : c.stepCall k = (c, some h) := by
  cases k with
  | refreshCall => simp [Cache.stepCall, Cache.refresh, hs]
  | getCall =>
      simp [Cache.stepCall, Cache.get, Cache.getAfterReady, hready, hempty,
        Cache.refresh, hs]

/-- Iterated form of `stepCall_attached` over a whole schedule of calls. -/
theorem runCalls_attached (c : Cache T E) (h : Nat) (ks : List Call)
    (hs : c.refreshObservable = some h) (hready : c.readySignaled = true)
    (hempty : truthy c.empty = true) :
    c.runCalls ks = (c, ks.map (fun _ => some h)) := by
  induction ks with
  | nil => simp [Cache.runCalls]
  | cons k ks ih =>
      simp [Cache.runCalls, stepCall_attached c h k hs hready hempty, ih]

/-- Rebinding the producer of the first matching entry neither adds nor
removes registry entries. -/
theorem rebindFirst_length (l : List (Cache T E)) (n : String) (obs : Nat) :
    (rebindFirst l n obs).length = l.length := by
  induction l with
  | nil => rfl
  | cons c rest ih =>
      by_cases hc : c.name = n <;> simp [rebindFirst, hc, ih]

/-! ## Claim theorems -/

/-- C1: single-flight.  While a refresh is outstanding (the slot holds
handle `h`), any schedule of concurrent `refresh()` / `get()`-on-empty call
steps leaves the entity state unchanged — in particular no further producer
invocation is started, so exactly the one outstanding invocation exists —
and every caller is attached to the same handle `h`, hence observes the same
eventual result; the slot never holds more than that one handle.  And
issuing a first `refresh()` while Idle followed by any such schedule starts
exactly one producer invocation, with every caller attached to it. -/
theorem single_flight (c : Cache T E) (h : Nat) (ks : List Call)
    (hready : c.readySignaled = true) (hempty : truthy c.empty = true) :
    (c.refreshObservable = some h →
      c.runCalls ks = (c, ks.map (fun _ => some h))) ∧
    (c.refreshObservable = none →
      c.runCalls (Call.refreshCall :: ks) =
        ((c.refresh).1,
          (Call.refreshCall :: ks).map (fun _ => some c.producerInvocations)) ∧
      ((c.refresh).1).producerInvocations = c.producerInvocations + 1) := by
  constructor
  · intro hs
    exact runCalls_attached c h ks hs hready hempty
  · intro hidle
    have hstep : c.stepCall Call.refreshCall =
        ((c.refresh).1, some c.producerInvocations) := by
      simp [Cache.stepCall, Cache.refresh, hidle]
    have hslot : ((c.refresh).1).refreshObservable =
        some c.producerInvocations := by
      simp [Cache.refresh, hidle]
    have hready1 : ((c.refresh).1).readySignaled = true := by
      simp [Cache.refresh, hidle, hready]
    have hempty1 : truthy ((c.refresh).1).empty = true := by
      simp [Cache.refresh, hidle, hempty]
    constructor
    · simp only [Cache.runCalls, hstep, List.map]
      rw [runCalls_attached (c.refresh).1 c.producerInvocations ks hslot
        hready1 hempty1]
    · simp [Cache.refresh, hidle]

/-- C1 witness: two concurrent calls attached to the in-flight refresh of
`busyCache` (handle 0), and a refresh-from-Idle schedule on `idleCache`. -/
theorem single_flight_witness :
    busyCache.runCalls [Call.refreshCall, Call.getCall] =
      (busyCache, [some 0, some 0]) ∧
    (idleCache.runCalls [Call.refreshCall, Call.getCall] =
      ((idleCache.refresh).1, [some 0, some 0]) ∧
      ((idleCache.refresh).1).producerInvocations =
        idleCache.producerInvocations + 1) :=
  ⟨(single_flight busyCache 0 [Call.refreshCall, Call.getCall]
      (by decide) (by decide)).1 (by decide),
   (single_flight idleCache 0 [Call.getCall]
      (by decide) (by decide)).2 (by decide)⟩

/-- C5: `set(v)` records `v` synchronously — immediately afterwards the
empty flag is cleared and the broadcast's current value equals `v` — and a
failed asynchronous persistence write rolls nothing back (it is the
identity on the state). -/
theorem set_synchronous (c : Cache T E) (v : Option T) :
    (c.set v).empty = some false ∧ (c.set v).data = v ∧
    (c.set v).persistSettle false = c.set v := by
  refine ⟨rfl, rfl, ?_⟩
  simp [Cache.persistSettle]

/-- C6 counterexample: after `set(5)` on a fresh entity the error list is
empty, and a failing write-back leaves it empty — the failure is NOT
reported on the Error Broadcast, contradicting the claim that every failed
write-back is emitted there. -/
theorem persist_failure_unreported :
    (filledCache.persistSettle false).errors = filledCache.errors ∧
    (filledCache.persistSettle false).errors = [] := by decide

/-- C6 amended: a failed asynchronous write-back is silently swallowed (the
promise chain in `set` has no rejection handler): nothing is emitted on the
Error Broadcast, nothing is thrown to the caller of `set` (the settlement is
a total state transformer), and the in-memory value and cleared empty flag
stand. -/
theorem persist_failure_silent (c : Cache T E) (v : Option T) :
    ((c.set v).persistSettle false).errors = c.errors ∧
    ((c.set v).persistSettle false).data = v ∧
    ((c.set v).persistSettle false).empty = some false := by
  simp [Cache.persistSettle, Cache.set]

/-- C7: `get()` stays suspended (`none`) until the readiness gate signals;
once ready it delegates to `refresh()` when the empty flag is truthy —
yielding exactly the handle of that refresh, hence that refresh's result —
and otherwise yields `Observable.of` of the current snapshot, leaving the
state untouched (in particular starting no producer invocation). -/
theorem get_contract (c : Cache T E) :
    (c.readySignaled = false → c.get = none) ∧
    (c.readySignaled = true → truthy c.empty = true →
      c.get = some ((c.refresh).1, GetAction.refreshDelegate (c.refresh).2)) ∧
    (c.readySignaled = true → truthy c.empty = false →
      c.get = some (c, GetAction.snapshot c.data) ∧
      ((c.getAfterReady).1).producerInvocations = c.producerInvocations) := by
  refine ⟨fun hnr => ?_, fun hr he => ?_, fun hr he => ⟨?_, ?_⟩⟩
  · simp [Cache.get, hnr]
  · simp [Cache.get, Cache.getAfterReady, hr, he]
  · simp [Cache.get, Cache.getAfterReady, hr, he]
  · simp [Cache.getAfterReady, he]

/-- C7 witness: `pendingCache` (gate not yet signalled) blocks; `memCache`
(ready, empty) delegates to its refresh; `filledCache` (ready, value 5)
yields the snapshot. -/
theorem get_contract_witness :
    (pendingCache.get = none) ∧
    (memCache.get =
      some ((memCache.refresh).1,
        GetAction.refreshDelegate (memCache.refresh).2)) ∧
    (filledCache.get = some (filledCache, GetAction.snapshot filledCache.data) ∧
      ((filledCache.getAfterReady).1).producerInvocations =
        filledCache.producerInvocations) :=
  ⟨(get_contract pendingCache).1 (by decide),
   (get_contract memCache).2.1 (by decide) (by decide),
   (get_contract filledCache).2.2 (by decide) (by decide)⟩

/-- C2 counterexample: after the storage probe of `pendingCache` rejects,
the failure is on the Error Broadcast, but the readiness gate has NOT been
signalled — `get()` and `isEmptyAsync()` are still suspended — and the
empty flag is still undefined, contradicting the claim that readiness still
signals and the entity is thereafter treated as empty. -/
theorem probe_failure_blocks :
    probeFailedCache.readySignaled = false ∧
    probeFailedCache.get = none ∧
    probeFailedCache.isEmptyAsync = none ∧
    probeFailedCache.empty = none ∧
    probeFailedCache.errors = [.storeMsg (retrieveMsg "k")] := by decide

/-- C2 amended: when the initial store probe fails (the key read rejects, or
storage access itself rejects), the corresponding failure message is emitted
on the Error Broadcast, but the rejection handlers do nothing else: the
readiness gate is not signalled by this path (so `ready()`/`get()`/
`isEmptyAsync()` stay suspended forever unless something else resolves it),
and the empty flag, data and loaded flag are left untouched. -/
theorem probe_failure_emits_only (c : Cache T E) (r : LoadResult T)
    (hr : r = LoadResult.getRejected ∨ r = LoadResult.readyRejected) :
    (r = LoadResult.getRejected →
      (c.loadSettle r).errors = c.errors ++ [.storeMsg (retrieveMsg c.name)]) ∧
    (r = LoadResult.readyRejected →
      (c.loadSettle r).errors = c.errors ++ [.storeMsg accessMsg]) ∧
    (c.loadSettle r).readySignaled = c.readySignaled ∧
    (c.loadSettle r).empty = c.empty ∧
    (c.loadSettle r).data = c.data ∧
    (c.loadSettle r).loaded = c.loaded := by
  rcases hr with hr | hr <;> subst hr <;>
    simp [Cache.loadSettle]

/-- C2 witness: the amended behaviour at `pendingCache` for a rejected key
read. -/
theorem probe_failure_emits_only_witness :
    ((LoadResult.getRejected : LoadResult Nat) = LoadResult.getRejected →
      (pendingCache.loadSettle LoadResult.getRejected).errors =
        pendingCache.errors ++ [.storeMsg (retrieveMsg pendingCache.name)]) ∧
    ((LoadResult.getRejected : LoadResult Nat) = LoadResult.readyRejected →
      (pendingCache.loadSettle LoadResult.getRejected).errors =
        pendingCache.errors ++ [.storeMsg accessMsg]) ∧
    (pendingCache.loadSettle LoadResult.getRejected).readySignaled =
      pendingCache.readySignaled ∧
    (pendingCache.loadSettle LoadResult.getRejected).empty =
      pendingCache.empty ∧
    (pendingCache.loadSettle LoadResult.getRejected).data =
      pendingCache.data ∧
    (pendingCache.loadSettle LoadResult.getRejected).loaded =
      pendingCache.loaded :=
  probe_failure_emits_only pendingCache LoadResult.getRejected (Or.inl rfl)

/-- C3, evaluated at the failing input: `nullRecordedCache` has
`allowNull = false` and current value `null`, yet the `get$` filter lets the
delivery through (`true`) — because the source tests the `BehaviorSubject`
reference (`this.data !== null`), which is always non-null, instead of the
current value.  The claim (and the source's own comment "Don't pass null if
allowNull is set to false") says the `null` must be withheld. -/
theorem null_delivered_despite_flag :
    nullRecordedCache.allowNull = false ∧
    nullRecordedCache.data = none ∧
    nullRecordedCache.getStreamFilter = (nullRecordedCache, true) := by decide

/-- C4 counterexample: with `allowNull = false`, accepting `null` via `set`
(the path a producer result takes) clears the empty flag — the entity is no
longer empty — contradicting the claim that recording `null` leaves
`isEmpty` true. -/
theorem set_null_clears_empty :
    nullRecordedCache.allowNull = false ∧
    nullRecordedCache.empty = some false := by decide

/-- C4 amended: with `allowNull = false` the two recording paths diverge.
A `null` found by the initial store probe leaves the entity empty, and the
next `get$` delivery attempt triggers an automatic refresh while withholding
emission; but a `null` routed through `set` (as a producer result is) clears
the empty flag, so the entity is not empty, no automatic refresh is
triggered on the next delivery attempt, and `get()` returns the `null`
snapshot without invoking the producer. -/
theorem null_handling_split (c : Cache T E)
    (hnull : c.allowNull = false) (hidle : c.refreshObservable = none) :
    (c.loadSettle (LoadResult.value none)).empty = some true ∧
    ((c.loadSettle (LoadResult.value none)).getStreamFilter).2 = false ∧
    (((c.loadSettle (LoadResult.value none)).getStreamFilter).1).producerInvocations
      = c.producerInvocations + 1 ∧
    (c.set none).empty = some false ∧
    (((c.set none).getStreamFilter).1).producerInvocations =
      c.producerInvocations ∧
    (c.set none).getAfterReady = (c.set none, GetAction.snapshot none) := by
  refine ⟨?_, ?_, ?_, rfl, ?_, ?_⟩
  · simp [Cache.loadSettle, hnull]
  · simp [Cache.loadSettle, hnull, Cache.getStreamFilter, truthy]
  · simp [Cache.loadSettle, hnull, Cache.getStreamFilter, truthy,
      Cache.refresh, hidle]
  · simp [Cache.set, Cache.getStreamFilter, truthy]
  · simp [Cache.set, Cache.getAfterReady, truthy]

/-- C4 witness: the amended null handling at `memCache`. -/
theorem null_handling_split_witness :
    (memCache.loadSettle (LoadResult.value none)).empty = some true ∧
    ((memCache.loadSettle (LoadResult.value none)).getStreamFilter).2 = false ∧
    (((memCache.loadSettle (LoadResult.value none)).getStreamFilter).1).producerInvocations
      = memCache.producerInvocations + 1 ∧
    (memCache.set none).empty = some false ∧
    (((memCache.set none).getStreamFilter).1).producerInvocations =
      memCache.producerInvocations ∧
    (memCache.set none).getAfterReady =
      (memCache.set none, GetAction.snapshot none) :=
  null_handling_split memCache (by decide) (by decide)

/-- C8: when the in-flight refresh settles with a producer failure `e`, the
Error Broadcast receives `e`, no value is recorded (data and empty flag are
untouched, so `isEmptyAsync()` still resolves `true` when it did before),
the slot is freed, and a `refresh()` issued afterwards starts a fresh
producer invocation (the invocation counter increases) instead of reusing
the settled one. -/
theorem refresh_failure_behaviour (c : Cache T E) (e : E) (h : Nat)
    (_hs : c.refreshObservable = some h) :
    (c.refreshSettle (RefreshOutcome.failure e)).errors =
      c.errors ++ [.producer e] ∧
    (c.refreshSettle (RefreshOutcome.failure e)).data = c.data ∧
    (c.refreshSettle (RefreshOutcome.failure e)).empty = c.empty ∧
    (c.readySignaled = true → truthy c.empty = true →
      (c.refreshSettle (RefreshOutcome.failure e)).isEmptyAsync = some true) ∧
    (c.refreshSettle (RefreshOutcome.failure e)).refreshObservable = none ∧
    ((c.refreshSettle (RefreshOutcome.failure e)).refresh).2 =
      c.producerInvocations ∧
    (((c.refreshSettle (RefreshOutcome.failure e)).refresh).1).producerInvocations
      = c.producerInvocations + 1 := by
  refine ⟨rfl, rfl, rfl, fun hr he => ?_, rfl, ?_, ?_⟩
  · simp [Cache.refreshSettle, Cache.isEmptyAsync, hr, he]
  · simp [Cache.refreshSettle, Cache.refresh]
  · simp [Cache.refreshSettle, Cache.refresh]

/-- C8 witness: a producer failure with error 7 on `busyCache`. -/
theorem refresh_failure_behaviour_witness :
    (busyCache.refreshSettle (RefreshOutcome.failure 7)).errors =
      busyCache.errors ++ [.producer 7] ∧
    (busyCache.refreshSettle (RefreshOutcome.failure 7)).data =
      busyCache.data ∧
    (busyCache.refreshSettle (RefreshOutcome.failure 7)).empty =
      busyCache.empty ∧
    (busyCache.readySignaled = true → truthy busyCache.empty = true →
      (busyCache.refreshSettle (RefreshOutcome.failure 7)).isEmptyAsync =
        some true) ∧
    (busyCache.refreshSettle (RefreshOutcome.failure 7)).refreshObservable =
      none ∧
    ((busyCache.refreshSettle (RefreshOutcome.failure 7)).refresh).2 =
      busyCache.producerInvocations ∧
    (((busyCache.refreshSettle (RefreshOutcome.failure 7)).refresh).1).producerInvocations
      = busyCache.producerInvocations + 1 :=
  refresh_failure_behaviour busyCache 7 0 (by decide)

/-- C9: looking up a never-registered name yields the defined
`Observable.throw` outcome with the source's (unbalanced-quote) message, not
a crash; registering an already-registered name returns the existing entity
— the registry keeps its length, no duplicate is created — with its producer
rebound to the newly supplied observable exactly when the overwrite flag is
not `false`. -/
theorem registry_contract (s : CacheService T E) (n : String) (obs : Nat)
    (o : Option Bool) :
    (lookupCache s.caches n = none →
      s.get n = Except.error
        ("Cache \"" ++ n ++ " has not been registered yet.")) ∧
    (∀ c, lookupCache s.caches n = some c →
      ((s.register n obs o).1.caches.length = s.caches.length ∧
       (s.register n obs o).2 =
         (if o = some false then c else c.setObservable obs))) := by
  constructor
  · intro hnone
    simp [CacheService.get, hnone]
  · intro c hc
    by_cases ho : o = some false <;>
      simp [CacheService.register, hc, ho, rebindFirst_length]

/-- C9 witness: `oneCacheService` knows `"w"` but not `"nope"`; registering
`"w"` again (overwrite omitted) returns the existing entity with the new
producer bound. -/
theorem registry_contract_witness :
    (lookupCache oneCacheService.caches "nope" = none →
      oneCacheService.get "nope" = Except.error
        ("Cache \"" ++ "nope" ++ " has not been registered yet.")) ∧
    (∀ c, lookupCache oneCacheService.caches "w" = some c →
      ((oneCacheService.register "w" 9 none).1.caches.length =
        oneCacheService.caches.length ∧
       (oneCacheService.register "w" 9 none).2 =
         (if (none : Option Bool) = some false then c
          else c.setObservable 9))) :=
  ⟨(registry_contract oneCacheService "nope" 9 none).1,
   (registry_contract oneCacheService "w" 9 none).2⟩

/-- C10: on a ready, non-empty entity `get()` leaves the state untouched and
hands back `Observable.of(currentSnapshot)`, which emits exactly one element
— the snapshot current when the gate let the call through — and then
completes; the emission list is independent of every shared-refresh
behaviour `res`, and no value other than that snapshot (in particular none
recorded by a later `set`) is ever delivered through it. -/
theorem get_one_shot (c : Cache T E) (res : Nat → List (Option T) × Bool)
    (hready : c.readySignaled = true) (hempty : truthy c.empty = false) :
    c.get = some (c, GetAction.snapshot c.data) ∧
    GetAction.emissions (GetAction.snapshot c.data) res = ([c.data], true) ∧
    (GetAction.emissions (GetAction.snapshot c.data) res).1.length = 1 ∧
    ∀ w, w ≠ c.data →
      w ∉ (GetAction.emissions (GetAction.snapshot c.data) res).1 := by
  refine ⟨?_, rfl, rfl, ?_⟩
  · simp [Cache.get, Cache.getAfterReady, hready, hempty]
  · intro w hw
    simp [GetAction.emissions, hw]

/-- C10 witness: the one-shot read on `filledCache` (value 5), with every
shared refresh pretending to emit 99. -/
theorem get_one_shot_witness :
    filledCache.get = some (filledCache, GetAction.snapshot filledCache.data) ∧
    GetAction.emissions (GetAction.snapshot filledCache.data)
      (fun _ => ([some 99], true)) = ([filledCache.data], true) ∧
    (GetAction.emissions (GetAction.snapshot filledCache.data)
      (fun _ => ([some 99], true))).1.length = 1 ∧
    ∀ w, w ≠ filledCache.data →
      w ∉ (GetAction.emissions (GetAction.snapshot filledCache.data)
        (fun _ => ([some 99], true))).1 :=
  get_one_shot filledCache (fun _ => ([some 99], true)) (by decide) (by decide)

end IonicCache
